import Mathlib

/-!
Shallow embedding of the turn-aggregation and evaluation pipeline
(`server/conversation_aggregator.py`, `server/coach.py`,
`server/session_logger.py`, and the orchestration handler in
`server/bot.py`), together with theorems settling the specification
claims about it.

Python strings are modelled as Lean `String`, Python `Optional[T]` as
`Option T`, Python lists as Lean `List`, and Python truthiness tests are
made explicit (`pyTruthyStrOpt`, `jsonTruthy`).  The external Gemini
oracle call is abstracted into an `OracleOutcome` parameter: a normal
response, a timeout, or a raised transport error; the surrounding
control flow of each function is translated statement by statement.
-/

/-- Whitespace characters recognised by Python `str.strip()` /
`str.split()` (ASCII whitespace set). -/
def pyIsSpace (c : Char) : Bool :=
  c = ' ' || c = '\t' || c = '\n' || c = '\r' || c = '\x0b' || c = '\x0c'

/-- Python `s.strip()`: remove leading and trailing whitespace. -/
def pyStrip (s : String) : String :=
  String.mk (((s.toList.dropWhile pyIsSpace).reverse.dropWhile pyIsSpace).reverse)

/-- Helper for `pySplit`: walk the characters, accumulating the current
word (reversed) and emitting it at each whitespace run. -/
def pySplitAux : List Char → List Char → List String
  | [], [] => []
  | [], acc => [String.mk acc.reverse]
  | c :: cs, acc =>
    if pyIsSpace c then
      match acc with
      | [] => pySplitAux cs []
      | _ => String.mk acc.reverse :: pySplitAux cs []
    else pySplitAux cs (c :: acc)

/-- Python `s.split()` with no arguments: split on runs of whitespace,
discarding empty fields. -/
def pySplit (s : String) : List String :=
  pySplitAux s.toList []

/-- Python truthiness of an `Optional[str]`: `None` and `""` are falsy. -/
def pyTruthyStrOpt : Option String → Bool
  | none => false
  | some s => s ≠ ""

/-- The whitespace-collapsing idiom `" ".join(s.split())` used by the
aggregator. -/
def collapseSpaces (s : String) : String :=
  String.intercalate " " (pySplit s)

/-- Dataclass `ConversationTurn` of `conversation_aggregator.py`:
a customer prompt (`Optional[str]`) plus the representative's response
fragments. -/
structure ConversationTurn where
  customer_prompt : Option String
  representative_responses : List String
deriving DecidableEq, Repr

/-- Method `ConversationTurn.get_aggregated_representative_response`:
join the fragments with single spaces and collapse repeated whitespace;
empty fragment list gives the empty string. -/
def ConversationTurn.get_aggregated_representative_response (t : ConversationTurn) : String :=
  if t.representative_responses = [] then ""
  else collapseSpaces (String.intercalate " " t.representative_responses)

/-- Mutable state of `ConversationAggregator` (`__init__`). -/
structure AggState where
  pending_customer_prompt : Option String
  pending_rep_fragments : List String
  completed_turns : List ConversationTurn
  turn_count : Nat
deriving DecidableEq, Repr

/-- Fresh aggregator: `ConversationAggregator.__init__`. -/
def AggState.init : AggState :=
  { pending_customer_prompt := none
    pending_rep_fragments := []
    completed_turns := []
    turn_count := 0 }

/-- Method `ConversationAggregator.add_message(role, content)`.  Returns
the optional completed `(customer_prompt, aggregated_response)` pair
together with the updated state.  Empty or whitespace-only content is a
no-op; an `assistant` message completes the pending turn when a truthy
pending prompt and at least one fragment exist, otherwise it overwrites
the pending prompt; a `user` message accumulates a fragment only when a
truthy pending prompt exists; other roles are dropped. -/
def add_message (s : AggState) (role content : String) :
    Option (String × String) × AggState :=
  if content = "" ∨ pyStrip content = "" then
    (none, s)
  else if role = "assistant" then
    if pyTruthyStrOpt s.pending_customer_prompt ∧ s.pending_rep_fragments ≠ [] then
      let aggregated_rep := collapseSpaces (String.intercalate " " s.pending_rep_fragments)
      let previous_prompt := s.pending_customer_prompt.getD ""
      let turn : ConversationTurn :=
        { customer_prompt := s.pending_customer_prompt
          representative_responses := s.pending_rep_fragments }
      (some (previous_prompt, aggregated_rep),
        { pending_customer_prompt := some (pyStrip content)
          pending_rep_fragments := []
          completed_turns := s.completed_turns ++ [turn]
          turn_count := s.turn_count + 1 })
    else
      (none, { s with
        pending_customer_prompt := some (pyStrip content)
        pending_rep_fragments := [] })
  else if role = "user" then
    if ¬ pyTruthyStrOpt s.pending_customer_prompt then
      (none, s)
    else
      (none, { s with
        pending_rep_fragments := s.pending_rep_fragments ++ [pyStrip content] })
  else
    (none, s)

/-- Method `ConversationAggregator.flush_pending_turn()`: finalize the
pending turn if a truthy pending prompt and at least one fragment exist,
clearing the pending state; otherwise return nothing. -/
def flush_pending_turn (s : AggState) : Option (String × String) × AggState :=
  if pyTruthyStrOpt s.pending_customer_prompt ∧ s.pending_rep_fragments ≠ [] then
    let aggregated_rep := collapseSpaces (String.intercalate " " s.pending_rep_fragments)
    let customer_prompt := s.pending_customer_prompt.getD ""
    let turn : ConversationTurn :=
      { customer_prompt := s.pending_customer_prompt
        representative_responses := s.pending_rep_fragments }
    (some (customer_prompt, aggregated_rep),
      { pending_customer_prompt := none
        pending_rep_fragments := []
        completed_turns := s.completed_turns ++ [turn]
        turn_count := s.turn_count + 1 })
  else
    (none, s)

/-- Feed a list of `(role, content)` events to a fresh aggregator via
`add_message`, returning the final state. -/
def runAgg (events : List (String × String)) : AggState :=
  events.foldl (fun s e => (add_message s e.1 e.2).2) AggState.init

/-- Boolean form of the spec's turn invariant: a turn has a truthy
(non-`None`, non-empty) customer prompt and at least one fragment. -/
def turnOk (t : ConversationTurn) : Bool :=
  pyTruthyStrOpt t.customer_prompt && !t.representative_responses.isEmpty

theorem add_message_preserves_turnOk (s : AggState) (role content : String)
    (h : s.completed_turns.all turnOk = true) :
    ((add_message s role content).2).completed_turns.all turnOk = true := by
  unfold add_message
  split
  · exact h
  · split
    · split
      · rename_i hg
        simp only [List.all_append, List.all_cons, List.all_nil, Bool.and_eq_true]
        refine ⟨h, ?_, trivial⟩
        simp only [turnOk, Bool.and_eq_true]
        exact ⟨hg.1, by simpa [List.isEmpty_iff] using hg.2⟩
      · exact h
    · split
      · split
        · exact h
        · exact h
      · exact h

theorem flush_preserves_turnOk (s : AggState)
    (h : s.completed_turns.all turnOk = true) :
    ((flush_pending_turn s).2).completed_turns.all turnOk = true := by
  unfold flush_pending_turn
  split
  · rename_i hg
    simp only [List.all_append, List.all_cons, List.all_nil, Bool.and_eq_true]
    refine ⟨h, ?_, trivial⟩
    simp only [turnOk, Bool.and_eq_true]
    exact ⟨hg.1, by simpa [List.isEmpty_iff] using hg.2⟩
  · exact h

theorem runAgg_from_preserves_turnOk (events : List (String × String)) :
    ∀ s : AggState, s.completed_turns.all turnOk = true →
      (events.foldl (fun s e => (add_message s e.1 e.2).2) s).completed_turns.all turnOk = true := by
  induction events with
  | nil => intro s h; exact h
  | cons e tl ih =>
    intro s h
    exact ih _ (add_message_preserves_turnOk s e.1 e.2 h)

/-- C7: every `ConversationTurn` ever appended to `completed_turns` by
any sequence of `add_message` calls — including a final
`flush_pending_turn` — has a truthy (non-empty) `customer_prompt` and at
least one representative fragment. -/
theorem C7_turn_creation_invariant (events : List (String × String)) :
    (runAgg events).completed_turns.all turnOk = true ∧
    ((flush_pending_turn (runAgg events)).2).completed_turns.all turnOk = true := by
  have h := runAgg_from_preserves_turnOk events AggState.init rfl
  exact ⟨h, flush_preserves_turnOk _ h⟩

/-- C1: after any sequence of events, `flush_pending_turn` returns
exactly the `(customer_prompt, aggregated_response)` pair that a
subsequent non-empty customer (`assistant`) message would have returned
via the normal completion rule of `add_message` (both return nothing
when no prompt-with-fragments is pending). -/
theorem C1_flush_next_trigger_equiv (events : List (String × String)) (c : String)
    (h : pyStrip c ≠ "") :
    (flush_pending_turn (runAgg events)).1 =
      (add_message (runAgg events) "assistant" c).1 := by
  have hc : ¬ (c = "" ∨ pyStrip c = "") := by
    rintro (rfl | hs)
    · exact h rfl
    · exact h hs
  unfold flush_pending_turn add_message
  rw [if_neg hc, if_pos rfl]
  split
  · rfl
  · rfl

/-- Closed witness for C1 at the spec's end-to-end event sequence and a
concrete non-empty trigger message. -/
theorem C1_flush_next_trigger_equiv_witness :
    (flush_pending_turn (runAgg
        [("assistant", "Hello, I lost my card"), ("user", "Okay")])).1 =
      (add_message (runAgg
        [("assistant", "Hello, I lost my card"), ("user", "Okay")]) "assistant" "Next").1 :=
  C1_flush_next_trigger_equiv
    [("assistant", "Hello, I lost my card"), ("user", "Okay")] "Next" (by decide)

/-- C2: the four-event scenario produces exactly one completed turn with
customer prompt "Hello, I lost my card" and aggregated response
"Okay Let me help", returned by the fourth event; afterwards the pending
prompt is "Thanks, what now" with zero fragments and
`flush_pending_turn` returns nothing. -/
theorem C2_end_to_end_scenario :
    (add_message (runAgg
        [("assistant", "Hello, I lost my card"), ("user", "Okay"), ("user", "Let me help")])
        "assistant" "Thanks, what now").1 =
      some ("Hello, I lost my card", "Okay Let me help") ∧
    (runAgg
        [("assistant", "Hello, I lost my card"), ("user", "Okay"), ("user", "Let me help"),
         ("assistant", "Thanks, what now")]).completed_turns =
      [{ customer_prompt := some "Hello, I lost my card"
         representative_responses := ["Okay", "Let me help"] }] ∧
    ConversationTurn.get_aggregated_representative_response
      { customer_prompt := some "Hello, I lost my card"
        representative_responses := ["Okay", "Let me help"] } = "Okay Let me help" ∧
    (runAgg
        [("assistant", "Hello, I lost my card"), ("user", "Okay"), ("user", "Let me help"),
         ("assistant", "Thanks, what now")]).pending_customer_prompt =
      some "Thanks, what now" ∧
    (runAgg
        [("assistant", "Hello, I lost my card"), ("user", "Okay"), ("user", "Let me help"),
         ("assistant", "Thanks, what now")]).pending_rep_fragments = [] ∧
    (flush_pending_turn (runAgg
        [("assistant", "Hello, I lost my card"), ("user", "Okay"), ("user", "Let me help"),
         ("assistant", "Thanks, what now")])).1 = none := by
  refine ⟨?_, ?_, ?_, ?_, ?_, ?_⟩ <;> decide

/-- Dataclass `TranscriptEntry` of `session_logger.py`.  The two
timestamps are produced from the wall clock at append time; here they
are passed in explicitly as parameters of the clock environment. -/
structure TranscriptEntry where
  ts_ms : Nat
  ts : String
  role : String
  content : String
deriving DecidableEq, Repr

/-- An entry of the interim-inclusive log: the transcript entry's fields
plus the `is_interim` flag (`{**asdict(entry), "is_interim": ...}`). -/
structure InterimEntry where
  entry : TranscriptEntry
  is_interim : Bool
deriving DecidableEq, Repr

/-- In-memory state of `SessionLogger`: the final-only transcript and
the interim-inclusive transcript.  (Each append also rewrites the
backing file; persistence itself is outside the embedding.) -/
structure LoggerState where
  transcript : List TranscriptEntry
  interim_transcript : List InterimEntry
deriving DecidableEq, Repr

/-- Fresh logger state (`SessionLogger.__init__`). -/
def LoggerState.init : LoggerState :=
  { transcript := [], interim_transcript := [] }

/-- One call to `SessionLogger.append_transcript(role, content,
is_interim)` observed with clock values `ts_ms`/`ts`. -/
structure AppendCall where
  role : String
  content : String
  is_interim : Bool
  ts_ms : Nat
  ts : String
deriving DecidableEq, Repr

/-- Method `SessionLogger.append_transcript`: build the entry; when the
event is final (`is_interim = false`) append it to the final-only log;
always append the flagged entry to the interim-inclusive log. -/
def append_transcript (st : LoggerState) (c : AppendCall) : LoggerState :=
  let entry : TranscriptEntry :=
    { ts_ms := c.ts_ms, ts := c.ts, role := c.role, content := c.content }
  let st1 :=
    if ¬ c.is_interim then { st with transcript := st.transcript ++ [entry] }
    else st
  { st1 with interim_transcript :=
      st1.interim_transcript ++ [{ entry := entry, is_interim := c.is_interim }] }

/-- Method `SessionLogger.get_transcript_for_assessment`: the final-only
entries, in arrival order. -/
def get_transcript_for_assessment (st : LoggerState) : List TranscriptEntry :=
  st.transcript

/-- The transcript entry a call gives rise to. -/
def AppendCall.toEntry (c : AppendCall) : TranscriptEntry :=
  { ts_ms := c.ts_ms, ts := c.ts, role := c.role, content := c.content }

/-- Run a sequence of `append_transcript` calls from a given state. -/
def runLoggerFrom (st : LoggerState) (calls : List AppendCall) : LoggerState :=
  calls.foldl append_transcript st

theorem runLoggerFrom_spec (calls : List AppendCall) : ∀ st : LoggerState,
    (runLoggerFrom st calls).interim_transcript =
      st.interim_transcript ++
        calls.map (fun c => { entry := c.toEntry, is_interim := c.is_interim }) ∧
    (runLoggerFrom st calls).transcript =
      st.transcript ++ (calls.filter (fun c => !c.is_interim)).map AppendCall.toEntry := by
  induction calls with
  | nil => intro st; simp [runLoggerFrom]
  | cons c tl ih =>
    intro st
    have hstep := ih (append_transcript st c)
    constructor
    · rw [show runLoggerFrom st (c :: tl) = runLoggerFrom (append_transcript st c) tl from rfl,
        hstep.1]
      by_cases hi : c.is_interim <;>
        simp [append_transcript, AppendCall.toEntry, hi, List.append_assoc]
    · rw [show runLoggerFrom st (c :: tl) = runLoggerFrom (append_transcript st c) tl from rfl,
        hstep.2]
      by_cases hi : c.is_interim <;>
        simp [append_transcript, AppendCall.toEntry, hi, List.append_assoc]

/-- C8: for every sequence of `append_transcript` calls from a fresh
logger, the interim-inclusive log holds one flagged entry per call in
order, the final-only log holds exactly the entries of the calls with
`is_interim = false`, and `get_transcript_for_assessment` returns
exactly those final entries in arrival order (no interim entry ever
included). -/
theorem C8_interim_routing (calls : List AppendCall) :
    (runLoggerFrom LoggerState.init calls).interim_transcript =
      calls.map (fun c => { entry := c.toEntry, is_interim := c.is_interim }) ∧
    get_transcript_for_assessment (runLoggerFrom LoggerState.init calls) =
      (calls.filter (fun c => !c.is_interim)).map AppendCall.toEntry := by
  have h := runLoggerFrom_spec calls LoggerState.init
  refine ⟨?_, ?_⟩
  · simpa [LoggerState.init] using h.1
  · simpa [LoggerState.init, get_transcript_for_assessment] using h.2

/-- The opening-brace character, written numerically. -/
def lbrace : Char := Char.ofNat 123

/-- The closing-brace character, written numerically. -/
def rbrace : Char := Char.ofNat 125

/-- A JSON value as produced by Python `json.loads`.  Numbers are kept
exactly as `mantissa * 10 ^ exp10` so that integer and decimal literals
are represented without floating point. -/
inductive JsonValue where
  | null
  | bool (b : Bool)
  | num (mantissa : Int) (exp10 : Int)
  | str (s : String)
  | arr (elems : List JsonValue)
  | obj (fields : List (String × JsonValue))
deriving Repr

/-- JSON structural whitespace (RFC 8259, as accepted by `json.loads`). -/
def jsonWs (c : Char) : Bool :=
  c = ' ' || c = '\t' || c = '\n' || c = '\r'

/-- Drop leading JSON whitespace. -/
def jsonSkipWs (cs : List Char) : List Char :=
  cs.dropWhile jsonWs

/-- Value of one hexadecimal digit. -/
def hexVal (c : Char) : Option Nat :=
  if '0' ≤ c ∧ c ≤ '9' then some (c.toNat - 48)
  else if 'a' ≤ c ∧ c ≤ 'f' then some (c.toNat - 87)
  else if 'A' ≤ c ∧ c ≤ 'F' then some (c.toNat - 70)
  else none

/-- Parse the body of a JSON string (after the opening quote), strict
mode: standard escapes, `\uXXXX`, and no raw control characters. -/
def parseStringAux : Nat → List Char → List Char → Option (String × List Char)
  | 0, _, _ => none
  | _ + 1, [], _ => none
  | fuel + 1, c :: rest, acc =>
    if c = '"' then some (String.mk acc.reverse, rest)
    else if c = '\\' then
      match rest with
      | [] => none
      | e :: rest2 =>
        if e = '"' ∨ e = '\\' ∨ e = '/' then parseStringAux fuel rest2 (e :: acc)
        else if e = 'b' then parseStringAux fuel rest2 ('\x08' :: acc)
        else if e = 'f' then parseStringAux fuel rest2 ('\x0c' :: acc)
        else if e = 'n' then parseStringAux fuel rest2 ('\n' :: acc)
        else if e = 'r' then parseStringAux fuel rest2 ('\r' :: acc)
        else if e = 't' then parseStringAux fuel rest2 ('\t' :: acc)
        else if e = 'u' then
          match rest2 with
          | h1 :: h2 :: h3 :: h4 :: rest3 =>
            match hexVal h1, hexVal h2, hexVal h3, hexVal h4 with
            | some a, some b, some c2, some d =>
              parseStringAux fuel rest3 (Char.ofNat (((a * 16 + b) * 16 + c2) * 16 + d) :: acc)
            | _, _, _, _ => none
          | _ => none
        else none
    else if c.toNat < 32 then none
    else parseStringAux fuel rest (c :: acc)

/-- Numeric value of a digit string. -/
def digitsToNat (ds : List Char) : Nat :=
  ds.foldl (fun a c => a * 10 + (c.toNat - 48)) 0

/-- Parse a JSON number literal `-?int frac? exp?` with the grammar of
`json.loads` (no leading zeros, fraction and exponent need digits). -/
def parseNumber (cs : List Char) : Option (JsonValue × List Char) :=
  let signed :=
    match cs with
    | '-' :: r => (true, r)
    | _ => (false, cs)
  let neg := signed.1
  let cs1 := signed.2
  let ids := cs1.takeWhile Char.isDigit
  let r1 := cs1.dropWhile Char.isDigit
  if ids = [] then none
  else if 1 < ids.length ∧ ids.headD '0' = '0' then none
  else
    let fracRes : Option (List Char × List Char) :=
      match r1 with
      | '.' :: r =>
        let fds := r.takeWhile Char.isDigit
        if fds = [] then none else some (fds, r.dropWhile Char.isDigit)
      | _ => some ([], r1)
    match fracRes with
    | none => none
    | some (fds, r2) =>
      let expRes : Option (Int × List Char) :=
        match r2 with
        | e :: r =>
          if e = 'e' ∨ e = 'E' then
            let signedE :=
              match r with
              | '+' :: rr => ((1 : Int), rr)
              | '-' :: rr => ((-1 : Int), rr)
              | _ => ((1 : Int), r)
            let eds := signedE.2.takeWhile Char.isDigit
            if eds = [] then none
            else some (signedE.1 * (digitsToNat eds : Int), signedE.2.dropWhile Char.isDigit)
          else some ((0 : Int), r2)
        | [] => some ((0 : Int), r2)
      match expRes with
      | none => none
      | some (ex, r3) =>
        let m : Int := (digitsToNat (ids ++ fds) : Int)
        some (.num (if neg then -m else m) (ex - (fds.length : Int)), r3)

/-- Python-dict insertion order: an existing key keeps its position and
gets the new value; a new key is appended. -/
def objInsert (fields : List (String × JsonValue)) (k : String) (v : JsonValue) :
    List (String × JsonValue) :=
  match fields with
  | [] => [(k, v)]
  | (k0, v0) :: tl => if k0 = k then (k0, v) :: tl else (k0, v0) :: objInsert tl k v

mutual

/-- Parse one JSON value (fuelled recursive-descent, mirroring the
grammar accepted by Python `json.loads`). -/
def parseJsonValue : Nat → List Char → Option (JsonValue × List Char)
  | 0, _ => none
  | fuel + 1, cs =>
    match jsonSkipWs cs with
    | [] => none
    | c :: rest =>
      if c = lbrace then
        match jsonSkipWs rest with
        | c2 :: rest2 =>
          if c2 = rbrace then some (.obj [], rest2)
          else parseJsonMembers fuel (c2 :: rest2) []
        | [] => none
      else if c = '[' then
        match jsonSkipWs rest with
        | c2 :: rest2 =>
          if c2 = ']' then some (.arr [], rest2)
          else parseJsonElements fuel (c2 :: rest2) []
        | [] => none
      else if c = '"' then
        match parseStringAux (rest.length + 1) rest [] with
        | some (s, r) => some (.str s, r)
        | none => none
      else
        match c :: rest with
        | 't' :: 'r' :: 'u' :: 'e' :: r => some (.bool true, r)
        | 'f' :: 'a' :: 'l' :: 's' :: 'e' :: r => some (.bool false, r)
        | 'n' :: 'u' :: 'l' :: 'l' :: r => some (.null, r)
        | cs2 => parseNumber cs2

/-- Parse the members of a JSON object after at least one member is
known to follow; duplicate keys overwrite in place as in a Python dict. -/
def parseJsonMembers : Nat → List Char → List (String × JsonValue) →
    Option (JsonValue × List Char)
  | 0, _, _ => none
  | fuel + 1, cs, acc =>
    match cs with
    | c :: rest =>
      if c = '"' then
        match parseStringAux (rest.length + 1) rest [] with
        | some (k, r1) =>
          match jsonSkipWs r1 with
          | ':' :: r2 =>
            match parseJsonValue fuel r2 with
            | some (v, r3) =>
              let acc2 := objInsert acc k v
              match jsonSkipWs r3 with
              | c4 :: r4 =>
                if c4 = ',' then parseJsonMembers fuel (jsonSkipWs r4) acc2
                else if c4 = rbrace then some (.obj acc2, r4)
                else none
              | [] => none
            | none => none
          | _ => none
        | none => none
      else none
    | [] => none

/-- Parse the elements of a JSON array after at least one element is
known to follow. -/
def parseJsonElements : Nat → List Char → List JsonValue →
    Option (JsonValue × List Char)
  | 0, _, _ => none
  | fuel + 1, cs, acc =>
    match parseJsonValue fuel cs with
    | some (v, r1) =>
      match jsonSkipWs r1 with
      | c2 :: r2 =>
        if c2 = ',' then parseJsonElements fuel r2 (acc ++ [v])
        else if c2 = ']' then some (.arr (acc ++ [v]), r2)
        else none
      | [] => none
    | none => none

end

/-- Python `json.loads(s)`: parse one JSON value and require only
whitespace to follow; `none` models a raised `JSONDecodeError`. -/
def json_loads (s : String) : Option JsonValue :=
  let cs := s.toList
  match parseJsonValue ((cs.length + 1) * 2) cs with
  | some (v, rest) => if jsonSkipWs rest = [] then some v else none
  | none => none

/-- Python `text.find(c)` for a single character: index of the first
occurrence, if any. -/
def pyFindChar : List Char → Char → Option Nat
  | [], _ => none
  | x :: xs, c => if x = c then some 0 else (pyFindChar xs c).map (· + 1)

/-- Python `text.rfind(c)` for a single character: index of the last
occurrence, if any. -/
def pyRFindChar : List Char → Char → Option Nat
  | [], _ => none
  | x :: xs, c =>
    match pyRFindChar xs c with
    | some i => some (i + 1)
    | none => if x = c then some 0 else none

/-- Function `_safe_json_extract` of `coach.py`: strict whole-text parse
first; on failure parse the substring from the first opening brace to
the last closing brace; on failure return nothing. -/
def _safe_json_extract (text : String) : Option JsonValue :=
  if text = "" then none
  else
    match json_loads text with
    | some v => some v
    | none =>
      let cs := text.toList
      match pyFindChar cs lbrace, pyRFindChar cs rbrace with
      | some st, some en =>
        if st < en then json_loads (String.mk ((cs.drop st).take (en + 1 - st)))
        else none
      | _, _ => none

theorem pyFindChar_eq_none (cs : List Char) (c : Char) (h : ∀ x ∈ cs, x ≠ c) :
    pyFindChar cs c = none := by
  induction cs with
  | nil => rfl
  | cons x xs ih =>
    unfold pyFindChar
    rw [if_neg (h x (by simp))]
    rw [ih (fun y hy => h y (by simp [hy]))]
    rfl

/-- C4 (amended): the example text extracts to the expected object; a
strict whole-text parse that succeeds is always returned as-is; and for
any text containing no brace characters the extraction result equals the
strict whole-text parse — null whenever that parse fails — while the raw
text is untouched (the caller in `evaluate_turn` keeps `raw_text`
verbatim alongside the parse result). -/
theorem C4_lossy_json_extraction (anytext text : String) (v : JsonValue)
    (hv : json_loads anytext = some v)
    (hnb : text.toList.all (fun c => !(c = lbrace || c = rbrace)) = true) :
    _safe_json_extract
        "Sure! Here is the JSON: \x7b\"turn_quality_score\": 8\x7d Thanks." =
      some (.obj [("turn_quality_score", .num 8 0)]) ∧
    _safe_json_extract anytext = some v ∧
    _safe_json_extract text = json_loads text := by
  refine ⟨by rfl, ?_, ?_⟩
  · by_cases he : anytext = ""
    · rw [he] at hv
      exact absurd hv (by rw [show json_loads "" = none from rfl]; simp)
    · unfold _safe_json_extract
      rw [if_neg he, hv]
  · by_cases he : text = ""
    · rw [he]; rfl
    · unfold _safe_json_extract
      rw [if_neg he]
      cases hjl : json_loads text with
      | some v2 => rfl
      | none =>
        have hmem := List.all_eq_true.mp hnb
        have hfind : pyFindChar text.toList lbrace = none := by
          refine pyFindChar_eq_none text.toList lbrace (fun x hx => ?_)
          have := hmem x hx
          simp only [Bool.not_eq_true', Bool.or_eq_false_iff, decide_eq_false_iff_not] at this
          exact this.1
        simp only [hfind]

/-- Closed witness for C4: a whole-text object parse is returned as-is,
and a brace-free text agrees with the strict parse. -/
theorem C4_lossy_json_extraction_witness :
    _safe_json_extract
        "Sure! Here is the JSON: \x7b\"turn_quality_score\": 8\x7d Thanks." =
      some (.obj [("turn_quality_score", .num 8 0)]) ∧
    _safe_json_extract "\x7b\x7d" = some (.obj []) ∧
    _safe_json_extract "no braces here" = json_loads "no braces here" :=
  C4_lossy_json_extraction "\x7b\x7d" "no braces here" (.obj []) (by rfl) (by decide)

/-- Counterexample to C4 as stated: the brace-free text "8" does not
yield a null parse — the strict fast path of `_safe_json_extract`
succeeds on the bare JSON scalar `8`. -/
theorem C4_counterexample :
    ("8".toList.all (fun c => !(c = lbrace || c = rbrace))) = true ∧
    (_safe_json_extract "8").isSome = true := by
  exact ⟨by decide, by rfl⟩

/-- Dataclass `TurnEvaluation` of `coach.py`. -/
structure TurnEvaluation where
  turn_number : Nat
  customer_message : String
  representative_response : String
  raw_text : String
  parsed : Option JsonValue

/-- Dataclass `ConversationState` of `coach.py`. -/
structure ConversationState where
  scenario : String
  persona_name : String
  last_customer_message : Option String
  last_evaluated_rep_response : Option String
  turn_index : Nat
  evaluations : List TurnEvaluation

/-- A freshly constructed `ConversationState` (field defaults). -/
def ConversationState.init (scenario persona_name : String) : ConversationState :=
  { scenario := scenario
    persona_name := persona_name
    last_customer_message := none
    last_evaluated_rep_response := none
    turn_index := 0
    evaluations := [] }

/-- One candidate of a Gemini response; `finish_reason` is `none` when
the attribute is absent (`hasattr` check in the source). -/
structure OracleCandidate where
  finish_reason : Option Int

/-- A Gemini response body: its candidate list and its text. -/
structure OracleResponse where
  candidates : List OracleCandidate
  text : String

/-- Outcome of the awaited oracle call in `evaluate_turn` /
`generate_session_assessment`: a response, an `asyncio.TimeoutError`, or
any other raised exception carrying its description `str(e)`. -/
inductive OracleOutcome where
  | ok (resp : OracleResponse)
  | timeout
  | error (msg : String)

/-- Method `GeminiCoach.evaluate_turn(state, customer_prompt,
representative_response)` with the oracle call abstracted into an
`OracleOutcome`.  Debounce: when the pair equals the last recorded pair,
return nothing and leave the state untouched.  Otherwise increment
`turn_index`, record the pair, obtain `raw_text` (substituting the
safety sentinel when the first candidate has `finish_reason = 2`, the
`"Timeout"` sentinel on timeout, and `str(e)` on any other exception),
extract `parsed`, append the evaluation, and return it.  The function is
total: every failure is absorbed into the returned record. -/
def evaluate_turn (oracle : OracleOutcome) (state : ConversationState)
    (customer_prompt representative_response : String) :
    Option TurnEvaluation × ConversationState :=
  if state.last_evaluated_rep_response = some representative_response ∧
      state.last_customer_message = some customer_prompt then
    (none, state)
  else
    let s1 : ConversationState :=
      { state with
        turn_index := state.turn_index + 1
        last_customer_message := some customer_prompt
        last_evaluated_rep_response := some representative_response }
    let rawParsed : String × Option JsonValue :=
      match oracle with
      | .ok resp =>
        let raw_text :=
          match resp.candidates with
          | [] => ""
          | cand :: _ =>
            match cand.finish_reason with
            | some fr =>
              if fr = 2 then "Response blocked by safety filters" else resp.text
            | none => resp.text
        (raw_text, _safe_json_extract raw_text)
      | .timeout => ("Timeout", none)
      | .error msg => (msg, none)
    let evaluation : TurnEvaluation :=
      { turn_number := s1.turn_index
        customer_message := customer_prompt
        representative_response := representative_response
        raw_text := rawParsed.1
        parsed := rawParsed.2 }
    (some evaluation, { s1 with evaluations := s1.evaluations ++ [evaluation] })

theorem evaluate_turn_debounced (oracle : OracleOutcome) (s : ConversationState)
    (cp rr : String)
    (h : s.last_evaluated_rep_response = some rr ∧ s.last_customer_message = some cp) :
    evaluate_turn oracle s cp rr = (none, s) := by
  unfold evaluate_turn
  rw [if_pos h]

theorem evaluate_turn_not_debounced (oracle : OracleOutcome) (s : ConversationState)
    (cp rr : String)
    (h : ¬ (s.last_evaluated_rep_response = some rr ∧ s.last_customer_message = some cp)) :
    ∃ ev : TurnEvaluation,
      (evaluate_turn oracle s cp rr).1 = some ev ∧
      (evaluate_turn oracle s cp rr).2 =
        { s with
          turn_index := s.turn_index + 1
          last_customer_message := some cp
          last_evaluated_rep_response := some rr
          evaluations := s.evaluations ++ [ev] } ∧
      ev.turn_number = s.turn_index + 1 ∧
      ev.customer_message = cp ∧ ev.representative_response = rr := by
  unfold evaluate_turn
  rw [if_neg h]
  exact ⟨_, rfl, rfl, rfl, rfl, rfl⟩

/-- C3: starting from a state whose last recorded pair differs from
`(cp, rr)`, two successive `evaluate_turn` calls with the identical pair
yield one non-null result then one null result; `turn_index` increments
exactly once; and the second (debounced) call mutates nothing and
appends no evaluation. -/
theorem C3_debounce_exactness (oracle1 oracle2 : OracleOutcome)
    (s0 : ConversationState) (cp rr : String)
    (h : ¬ (s0.last_evaluated_rep_response = some rr ∧ s0.last_customer_message = some cp)) :
    ((evaluate_turn oracle1 s0 cp rr).1).isSome = true ∧
    (evaluate_turn oracle2 (evaluate_turn oracle1 s0 cp rr).2 cp rr).1 = none ∧
    (evaluate_turn oracle2 (evaluate_turn oracle1 s0 cp rr).2 cp rr).2 =
      (evaluate_turn oracle1 s0 cp rr).2 ∧
    ((evaluate_turn oracle1 s0 cp rr).2).turn_index = s0.turn_index + 1 ∧
    ((evaluate_turn oracle1 s0 cp rr).2).evaluations.length = s0.evaluations.length + 1 := by
  obtain ⟨ev, h1, h2, h3, _, _⟩ := evaluate_turn_not_debounced oracle1 s0 cp rr h
  have hcond : ((evaluate_turn oracle1 s0 cp rr).2).last_evaluated_rep_response = some rr ∧
      ((evaluate_turn oracle1 s0 cp rr).2).last_customer_message = some cp := by
    rw [h2]; exact ⟨rfl, rfl⟩
  have hdb := evaluate_turn_debounced oracle2 ((evaluate_turn oracle1 s0 cp rr).2) cp rr hcond
  refine ⟨by rw [h1]; rfl, by rw [hdb], by rw [hdb], by rw [h2], by rw [h2]; simp⟩

/-- Closed witness for C3 at a fresh state and a concrete pair. -/
theorem C3_debounce_exactness_witness :
    ((evaluate_turn .timeout (ConversationState.init "card" "Sarah Chen") "Hi" "Hello").1).isSome
      = true ∧
    (evaluate_turn .timeout
      (evaluate_turn .timeout (ConversationState.init "card" "Sarah Chen") "Hi" "Hello").2
      "Hi" "Hello").1 = none ∧
    (evaluate_turn .timeout
      (evaluate_turn .timeout (ConversationState.init "card" "Sarah Chen") "Hi" "Hello").2
      "Hi" "Hello").2 =
      (evaluate_turn .timeout (ConversationState.init "card" "Sarah Chen") "Hi" "Hello").2 ∧
    ((evaluate_turn .timeout (ConversationState.init "card" "Sarah Chen") "Hi" "Hello").2).turn_index
      = (ConversationState.init "card" "Sarah Chen").turn_index + 1 ∧
    ((evaluate_turn .timeout
        (ConversationState.init "card" "Sarah Chen") "Hi" "Hello").2).evaluations.length
      = (ConversationState.init "card" "Sarah Chen").evaluations.length + 1 :=
  C3_debounce_exactness .timeout .timeout (ConversationState.init "card" "Sarah Chen")
    "Hi" "Hello" (by simp [ConversationState.init])

/-- C5: on a non-debounced call, a timeout yields a normally returned
evaluation with the sentinel `"Timeout"` and a null parse, and any other
raised failure yields a normally returned evaluation with the error
description as `raw_text` and a null parse; `evaluate_turn` is a total
function, so no exception escapes in either case. -/
theorem C5_failure_absorption (s : ConversationState) (cp rr msg : String)
    (h : ¬ (s.last_evaluated_rep_response = some rr ∧ s.last_customer_message = some cp)) :
    (∃ ev : TurnEvaluation, (evaluate_turn .timeout s cp rr).1 = some ev ∧
      ev.raw_text = "Timeout" ∧ ev.parsed = none) ∧
    (∃ ev : TurnEvaluation, (evaluate_turn (.error msg) s cp rr).1 = some ev ∧
      ev.raw_text = msg ∧ ev.parsed = none) := by
  constructor
  · unfold evaluate_turn
    rw [if_neg h]
    exact ⟨_, rfl, rfl, rfl⟩
  · unfold evaluate_turn
    rw [if_neg h]
    exact ⟨_, rfl, rfl, rfl⟩

/-- Closed witness for C5 at a fresh state. -/
theorem C5_failure_absorption_witness :
    (∃ ev : TurnEvaluation,
      (evaluate_turn .timeout (ConversationState.init "card" "Sarah Chen") "Hi" "Hello").1
        = some ev ∧ ev.raw_text = "Timeout" ∧ ev.parsed = none) ∧
    (∃ ev : TurnEvaluation,
      (evaluate_turn (.error "boom") (ConversationState.init "card" "Sarah Chen") "Hi" "Hello").1
        = some ev ∧ ev.raw_text = "boom" ∧ ev.parsed = none) :=
  C5_failure_absorption (ConversationState.init "card" "Sarah Chen") "Hi" "Hello" "boom"
    (by simp [ConversationState.init])

/-- Run a sequence of `evaluate_turn` calls, each one an oracle outcome
plus a `(customer_prompt, representative_response)` pair, threading the
conversation state. -/
def runEvals (calls : List (OracleOutcome × String × String)) (s : ConversationState) :
    ConversationState :=
  calls.foldl (fun st c => (evaluate_turn c.1 st c.2.1 c.2.2).2) s

theorem evaluate_turn_preserves_count (oracle : OracleOutcome) (s : ConversationState)
    (cp rr : String) (h : s.turn_index = s.evaluations.length) :
    (evaluate_turn oracle s cp rr).2.turn_index =
      (evaluate_turn oracle s cp rr).2.evaluations.length := by
  by_cases hd : s.last_evaluated_rep_response = some rr ∧ s.last_customer_message = some cp
  · rw [evaluate_turn_debounced oracle s cp rr hd]
    exact h
  · obtain ⟨ev, _, h2, _, _, _⟩ := evaluate_turn_not_debounced oracle s cp rr hd
    rw [h2]
    simp [h]

theorem runEvals_preserves_count (calls : List (OracleOutcome × String × String)) :
    ∀ s : ConversationState, s.turn_index = s.evaluations.length →
      (runEvals calls s).turn_index = (runEvals calls s).evaluations.length := by
  induction calls with
  | nil => intro s h; exact h
  | cons c tl ih =>
    intro s h
    exact ih _ (evaluate_turn_preserves_count c.1 s c.2.1 c.2.2 h)

/-- C10: from a fresh `ConversationState` every sequence of
`evaluate_turn` calls keeps `turn_index` equal to the number of recorded
evaluations; a debounced call changes nothing and returns nothing; a
non-debounced call appends exactly one evaluation whose `turn_number`
equals the post-increment `turn_index`. -/
theorem C10_evaluator_bookkeeping (calls : List (OracleOutcome × String × String))
    (scenario persona : String) (oracle : OracleOutcome) (s : ConversationState)
    (cp rr : String) :
    (runEvals calls (ConversationState.init scenario persona)).turn_index =
      (runEvals calls (ConversationState.init scenario persona)).evaluations.length ∧
    ((s.last_evaluated_rep_response = some rr ∧ s.last_customer_message = some cp) →
      evaluate_turn oracle s cp rr = (none, s)) ∧
    (¬ (s.last_evaluated_rep_response = some rr ∧ s.last_customer_message = some cp) →
      ∃ ev : TurnEvaluation,
        (evaluate_turn oracle s cp rr).1 = some ev ∧
        (evaluate_turn oracle s cp rr).2.evaluations = s.evaluations ++ [ev] ∧
        ev.turn_number = (evaluate_turn oracle s cp rr).2.turn_index ∧
        (evaluate_turn oracle s cp rr).2.turn_index = s.turn_index + 1) := by
  refine ⟨runEvals_preserves_count calls (ConversationState.init scenario persona) rfl,
    evaluate_turn_debounced oracle s cp rr, fun hd => ?_⟩
  obtain ⟨ev, h1, h2, h3, _, _⟩ := evaluate_turn_not_debounced oracle s cp rr hd
  refine ⟨ev, h1, by rw [h2], by rw [h2]; exact h3, by rw [h2]⟩

/-- Closed witness for C10: the bookkeeping facts at a concrete call
sequence, a concrete debounced state, and a concrete fresh state. -/
theorem C10_evaluator_bookkeeping_witness :
    (runEvals [(.timeout, "Hi", "Hello")] (ConversationState.init "card" "Sarah Chen")).turn_index =
      (runEvals [(.timeout, "Hi", "Hello")]
        (ConversationState.init "card" "Sarah Chen")).evaluations.length ∧
    evaluate_turn .timeout
      { scenario := "card", persona_name := "Sarah Chen",
        last_customer_message := some "Hi", last_evaluated_rep_response := some "Hello",
        turn_index := 1, evaluations := [] } "Hi" "Hello" =
      (none,
        { scenario := "card", persona_name := "Sarah Chen",
          last_customer_message := some "Hi", last_evaluated_rep_response := some "Hello",
          turn_index := 1, evaluations := [] }) ∧
    (∃ ev : TurnEvaluation,
      (evaluate_turn .timeout (ConversationState.init "card" "Sarah Chen") "Hi" "Hello").1
        = some ev ∧
      (evaluate_turn .timeout
        (ConversationState.init "card" "Sarah Chen") "Hi" "Hello").2.evaluations =
        (ConversationState.init "card" "Sarah Chen").evaluations ++ [ev] ∧
      ev.turn_number =
        (evaluate_turn .timeout (ConversationState.init "card" "Sarah Chen") "Hi" "Hello").2.turn_index ∧
      (evaluate_turn .timeout
        (ConversationState.init "card" "Sarah Chen") "Hi" "Hello").2.turn_index =
        (ConversationState.init "card" "Sarah Chen").turn_index + 1) :=
  ⟨(C10_evaluator_bookkeeping [(.timeout, "Hi", "Hello")] "card" "Sarah Chen" .timeout
      (ConversationState.init "card" "Sarah Chen") "Hi" "Hello").1,
   (C10_evaluator_bookkeeping [] "card" "Sarah Chen" .timeout
      { scenario := "card", persona_name := "Sarah Chen",
        last_customer_message := some "Hi", last_evaluated_rep_response := some "Hello",
        turn_index := 1, evaluations := [] } "Hi" "Hello").2.1 ⟨rfl, rfl⟩,
   (C10_evaluator_bookkeeping [] "card" "Sarah Chen" .timeout
      (ConversationState.init "card" "Sarah Chen") "Hi" "Hello").2.2
      (by simp [ConversationState.init])⟩

/-- A record found by `prompts_repo.find(entity="coach_agent",
name_contains="Session Assessment")`: the content fields the assessment
prompt uses. -/
structure PromptRecord where
  instruction : String
  achievements : List String
deriving DecidableEq, Repr

/-- One transcript dict handed to `generate_session_assessment` (the
shape produced by `get_transcript_for_assessment`). -/
structure AssessEntry where
  role : String
  content : String
  ts : String
deriving DecidableEq, Repr

/-- Method `GeminiCoach.generate_session_assessment(state, transcript)`
with the oracle call abstracted into an `OracleOutcome`.  The function
is total — no failure escapes: an empty transcript, a missing
assessment-prompt record, an empty oracle response, a timeout, and any
other raised failure each return their labelled fallback markdown; a
non-empty response text is returned as-is.  Prompt assembly feeds only
the abstracted oracle call, so it does not affect the returned value. -/
def generate_session_assessment (oracle : OracleOutcome)
    (assessment_prompt : List PromptRecord) (transcript : List AssessEntry) : String :=
  if transcript = [] then
    "# Session Assessment\n\nNo transcript available for assessment."
  else if assessment_prompt = [] then
    "# Session Assessment\n\nAssessment configuration not found."
  else
    match oracle with
    | .ok resp =>
      if resp.text ≠ "" then resp.text
      else "# Session Assessment\n\nAssessment generation failed - no response received."
    | .timeout => "# Session Assessment\n\nAssessment generation timed out."
    | .error msg => "# Session Assessment\n\nAssessment generation failed: " ++ msg

theorem string_append_ne_of_take (a m b : String)
    (hne : b.data.take a.data.length ≠ a.data) : a ++ m ≠ b := by
  intro h
  have h2 : a.data ++ m.data = b.data := congrArg String.data h
  apply hne
  rw [← h2]
  exact List.take_left a.data m.data

/-- C9: `generate_session_assessment` is total (never raises), and the
four failure conditions — empty transcript, missing instruction
template, timeout, and any other failure — return four markdown strings
that are pairwise distinct, each naming its own cause. -/
theorem C9_session_assessment_fallbacks (oracle : OracleOutcome)
    (prompts : List PromptRecord) (p : PromptRecord) (ps : List PromptRecord)
    (e : AssessEntry) (tl : List AssessEntry) (msg : String) :
    generate_session_assessment oracle prompts [] =
      "# Session Assessment\n\nNo transcript available for assessment." ∧
    generate_session_assessment oracle [] (e :: tl) =
      "# Session Assessment\n\nAssessment configuration not found." ∧
    generate_session_assessment .timeout (p :: ps) (e :: tl) =
      "# Session Assessment\n\nAssessment generation timed out." ∧
    generate_session_assessment (.error msg) (p :: ps) (e :: tl) =
      "# Session Assessment\n\nAssessment generation failed: " ++ msg ∧
    ("# Session Assessment\n\nNo transcript available for assessment." ≠
      "# Session Assessment\n\nAssessment configuration not found.") ∧
    ("# Session Assessment\n\nNo transcript available for assessment." ≠
      "# Session Assessment\n\nAssessment generation timed out.") ∧
    ("# Session Assessment\n\nAssessment configuration not found." ≠
      "# Session Assessment\n\nAssessment generation timed out.") ∧
    ("# Session Assessment\n\nAssessment generation failed: " ++ msg ≠
      "# Session Assessment\n\nNo transcript available for assessment.") ∧
    ("# Session Assessment\n\nAssessment generation failed: " ++ msg ≠
      "# Session Assessment\n\nAssessment configuration not found.") ∧
    ("# Session Assessment\n\nAssessment generation failed: " ++ msg ≠
      "# Session Assessment\n\nAssessment generation timed out.") := by
  refine ⟨rfl, by simp [generate_session_assessment], ?_, ?_, by decide, by decide, by decide,
    ?_, ?_, ?_⟩
  · simp [generate_session_assessment]
  · simp [generate_session_assessment]
  · exact string_append_ne_of_take _ msg _ (by decide)
  · exact string_append_ne_of_take _ msg _ (by decide)
  · exact string_append_ne_of_take _ msg _ (by decide)

/-- Python truthiness of a parsed JSON value (`if eval_res.parsed:`):
`None`, `False`, zero, the empty string, the empty list and the empty
dict are falsy. -/
def jsonTruthy : JsonValue → Bool
  | .null => false
  | .bool b => b
  | .num m _ => m ≠ 0
  | .str s => s ≠ ""
  | .arr es => !es.isEmpty
  | .obj fs => !fs.isEmpty

/-- One call made on the `SessionLogger` by the orchestration handler in
`bot.py`: `append_transcript` or `append_coach_turn`. -/
inductive RecorderCall where
  | transcript (role content : String) (is_interim : Bool)
  | coachTurn (turn : Nat) (customer representative : String) (coaching : JsonValue)

/-- The mutable state the `on_transcript_update` handler threads: the
`ConversationAggregator` and the coach's `ConversationState`. -/
structure BotState where
  agg : AggState
  conv : ConversationState

/-- Body of the `on_transcript_update` handler of `bot.py` for one
finalized message: always record the transcript event (`is_interim =
False`), feed the aggregator, and on a completed turn evaluate it; the
coach record is appended only when the evaluation result and its
`parsed` payload are both truthy.  Returns the new state and the
recorder calls made, in order. -/
def on_transcript_update_message (oracle : OracleOutcome) (st : BotState)
    (role content : String) : BotState × List RecorderCall :=
  let calls0 : List RecorderCall := [.transcript role content false]
  let stepAgg := add_message st.agg role content
  match stepAgg.1 with
  | none => ({ st with agg := stepAgg.2 }, calls0)
  | some pair =>
    let stepEval := evaluate_turn oracle st.conv pair.1 pair.2
    let st2 : BotState := { agg := stepAgg.2, conv := stepEval.2 }
    match stepEval.1 with
    | some ev =>
      match ev.parsed with
      | some parsed =>
        if jsonTruthy parsed then
          (st2, calls0 ++ [.coachTurn stepEval.2.turn_index pair.1 pair.2 parsed])
        else (st2, calls0)
      | none => (st2, calls0)
    | none => (st2, calls0)

/-- Counterexample to C6 as stated: with a pending turn and a timed-out
oracle, the handler receives an `EvaluationResult` from `evaluate_turn`
(a degraded one, `parsed = null`) yet makes no `append_coach_turn`
call — only the transcript event is persisted. -/
theorem C6_counterexample :
    (add_message
        { pending_customer_prompt := some "Hello", pending_rep_fragments := ["Okay"],
          completed_turns := [], turn_count := 0 } "assistant" "Next").1 =
      some ("Hello", "Okay") ∧
    ((evaluate_turn .timeout
        (ConversationState.init "card" "Sarah Chen") "Hello" "Okay").1).isSome = true ∧
    ((evaluate_turn .timeout
        (ConversationState.init "card" "Sarah Chen") "Hello" "Okay").1).map
        TurnEvaluation.parsed = some none ∧
    (on_transcript_update_message .timeout
        { agg := { pending_customer_prompt := some "Hello", pending_rep_fragments := ["Okay"],
                   completed_turns := [], turn_count := 0 },
          conv := ConversationState.init "card" "Sarah Chen" } "assistant" "Next").2 =
      [RecorderCall.transcript "assistant" "Next" false] :=
  ⟨rfl, rfl, rfl, rfl⟩

/-- C6 (amended): for every finalized event the handler always pushes
one `append_transcript` call first; an `append_coach_turn` call is made
exactly when the completed turn's evaluation returned a result whose
`parsed` payload is truthy — degraded evaluations (`parsed = null`) are
not persisted to the per-turn log. -/
theorem C6_recorder_persistence (oracle : OracleOutcome) (st : BotState)
    (role content : String) :
    ((on_transcript_update_message oracle st role content).2).head? =
      some (.transcript role content false) ∧
    ((on_transcript_update_message oracle st role content).2 =
        [.transcript role content false] ∨
      ∃ (pair : String × String) (ev : TurnEvaluation) (parsed : JsonValue),
        (add_message st.agg role content).1 = some pair ∧
        (evaluate_turn oracle st.conv pair.1 pair.2).1 = some ev ∧
        ev.parsed = some parsed ∧ jsonTruthy parsed = true ∧
        (on_transcript_update_message oracle st role content).2 =
          [.transcript role content false,
           .coachTurn (evaluate_turn oracle st.conv pair.1 pair.2).2.turn_index
             pair.1 pair.2 parsed]) := by
  simp only [on_transcript_update_message]
  cases hp : (add_message st.agg role content).1 with
  | none => simp
  | some pair =>
    cases he : (evaluate_turn oracle st.conv pair.1 pair.2).1 with
    | none => simp [he]
    | some ev =>
      cases hq : ev.parsed with
      | none => simp [he, hq]
      | some parsed =>
        by_cases ht : jsonTruthy parsed
        · simp only [he, hq, if_pos ht, List.head?]
          exact ⟨rfl, Or.inr ⟨pair, ev, parsed, rfl, he, hq, ht, rfl⟩⟩
        · simp [he, hq, ht]
